import Mathlib

/-!
Verification model of the kafka-offset program.

The model embeds the two provided Go source files:
  * kafka-offset.go        — the process orchestrator (main, signal handling)
  * pkg/sinks/kafka_sink.go — the Kafka republish sink (NewKafkaSink, run,
                              Close, Wait and the four worker goroutines)

Go channels are modelled as a bounded buffer with a closed flag; a worker
goroutine is modelled as a fuel/schedule-driven loop whose schedule bit says
which ready select case the Go runtime picks when both the metric channel and
the stop channel are ready.  Parts of the repository that are not among the
provided sources (the metrics package: the sink registry and the collection
engine) are modelled from the spec and marked as such in their doc comments.
-/

namespace KafkaOffset

/-- One metric record as a sink worker sees it: the worker json-marshals the
record and publishes the bytes with a synchronous producer
(kafka_sink.go, run), so a record is modelled by the outcomes of its two
fallible steps. -/
structure MetricRecord where
  marshalOk : Bool
  publishOk : Bool
deriving DecidableEq, Repr

/-- Outcome of handling one record inside a worker loop body
(kafka_sink.go lines 92-105 and the three analogous loops). -/
inductive RecordOutcome
  | published
  | marshalErrorLogged
  | publishErrorLogged
deriving DecidableEq, Repr

/-- Body of the per-record loop of a sink worker: marshal; on error log and
drop; otherwise publish; on error log and drop (kafka_sink.go lines 92-105). -/
def processRecord (r : MetricRecord) : RecordOutcome :=
  if r.marshalOk then
    if r.publishOk then .published else .publishErrorLogged
  else .marshalErrorLogged

/-- The for-loop over one received batch: every record is handled in order,
each independently of the others (kafka_sink.go line 92, for _, metric). -/
def processBatch (batch : List MetricRecord) : List RecordOutcome :=
  batch.map processRecord

/-- A Go channel: a bounded FIFO buffer plus a closed flag. -/
structure Chan (α : Type) where
  buffered : List α
  capacity : Nat
  closed : Bool
deriving DecidableEq, Repr

/-- Result of a Go channel send: delivered into the buffer, blocked because
the buffer is full, or a runtime panic because the channel is closed. -/
inductive SendOutcome (α : Type)
  | delivered (c : Chan α)
  | blockedFull
  | panicOnClosed
deriving DecidableEq, Repr

/-- Go runtime panics the model can raise. -/
inductive GoPanic
  | closeOfClosedChannel
deriving DecidableEq, Repr

/-- Make an open empty channel of the given capacity, as make(chan T, cap). -/
def Chan.make (α : Type) (cap : Nat) : Chan α :=
  { buffered := [], capacity := cap, closed := false }

/-- Send on a channel: a send on a closed channel panics; a send into a full
buffer blocks the sender (it does not drop); otherwise the value is appended. -/
def Chan.send {α : Type} (c : Chan α) (x : α) : SendOutcome α :=
  if c.closed then .panicOnClosed
  else if c.buffered.length < c.capacity then
    .delivered { c with buffered := c.buffered ++ [x] }
  else .blockedFull

/-- Close a channel: closing an already-closed channel panics, as in Go. -/
def Chan.closeCh {α : Type} (c : Chan α) : Except GoPanic (Chan α) :=
  if c.closed then .error .closeOfClosedChannel
  else .ok { c with closed := true }

/-- A receive select case is ready when the buffer is nonempty or the channel
is closed (a closed empty channel yields the zero value immediately). -/
def Chan.recvReady {α : Type} (c : Chan α) : Bool :=
  !c.buffered.isEmpty || c.closed

/-- Receive a batch from a channel of record slices: take the head of the
buffer, or the zero value (nil slice) when the buffer is empty and the
channel closed. -/
def Chan.recvBatch (c : Chan (List MetricRecord)) :
    List MetricRecord × Chan (List MetricRecord) :=
  match c.buffered with
  | [] => ([], c)
  | b :: rest => (b, { c with buffered := rest })

/-- One sink worker goroutine of kafka_sink.go run: its metric channel,
whether its goroutine has returned, and the outcomes of the records it has
handled so far, in order. -/
structure SinkWorker where
  chan : Chan (List MetricRecord)
  exited : Bool
  exported : List RecordOutcome
deriving DecidableEq, Repr

/-- One iteration of a worker goroutine select loop
(kafka_sink.go lines 89-110 and the three analogous loops).  When both the
metric-channel case and the stop case are ready, the Go runtime picks one of
the ready cases arbitrarily; pick = true models picking the stop case.
When only the stop case is ready the worker returns; when only the receive
case is ready the worker handles the batch and loops; when neither is ready
the worker stays parked. -/
def workerStep (pick : Bool) (stopClosed : Bool) (w : SinkWorker) : SinkWorker :=
  if w.exited then w
  else if w.chan.recvReady then
    if stopClosed && pick then { w with exited := true }
    else
      let p := w.chan.recvBatch
      { w with chan := p.2, exported := w.exported ++ processBatch p.1 }
  else if stopClosed then { w with exited := true }
  else w

/-- Run a worker goroutine for one scheduler choice per loop iteration. -/
def workerRun : List Bool → Bool → SinkWorker → SinkWorker
  | [], _, w => w
  | pick :: sched, stopClosed, w =>
      workerRun sched stopClosed (workerStep pick stopClosed w)

theorem workerStep_of_exited (pick sc : Bool) (w : SinkWorker)
    (h : w.exited = true) : workerStep pick sc w = w := by
  simp [workerStep, h]

theorem workerRun_of_exited (sched : List Bool) (sc : Bool) (w : SinkWorker)
    (h : w.exited = true) : workerRun sched sc w = w := by
  induction sched with
  | nil => rfl
  | cons pick sched ih => simp [workerRun, workerStep_of_exited pick sc w h, ih]

theorem workerStep_closed (pick sc : Bool) (w : SinkWorker) :
    (workerStep pick sc w).chan.closed = w.chan.closed := by
  unfold workerStep
  split
  · rfl
  · split
    · split
      · rfl
      · unfold Chan.recvBatch
        cases hb : w.chan.buffered <;> simp
    · split <;> rfl

theorem workerRun_closed (sched : List Bool) (sc : Bool) (w : SinkWorker) :
    (workerRun sched sc w).chan.closed = w.chan.closed := by
  induction sched generalizing w with
  | nil => rfl
  | cons pick sched ih =>
      simp [workerRun, ih (workerStep pick sc w), workerStep_closed]

/-- Every worker terminates once the stop channel is closed and no new sends
arrive: each loop iteration either consumes one buffered batch or returns, so
any schedule longer than the number of buffered batches drives the worker to
exit, whichever ready case the runtime picks at each step. -/
theorem workerRun_exits (sched : List Bool) (w : SinkWorker)
    (hopen : w.chan.closed = false)
    (hlen : w.chan.buffered.length < sched.length) :
    (workerRun sched true w).exited = true := by
  induction sched generalizing w with
  | nil => simp at hlen
  | cons pick sched ih =>
      by_cases hex : w.exited = true
      · rw [workerRun_of_exited _ _ _ hex]; exact hex
      · rw [Bool.not_eq_true] at hex
        cases hb : w.chan.buffered with
        | nil =>
            have hstep : workerStep pick true w = { w with exited := true } := by
              unfold workerStep
              simp [hex, Chan.recvReady, hb, hopen]
            simp [workerRun, hstep, workerRun_of_exited]
        | cons b rest =>
            by_cases hp : pick = true
            · have hstep : workerStep pick true w = { w with exited := true } := by
                unfold workerStep
                simp [hex, Chan.recvReady, hb, hp]
              simp [workerRun, hstep, workerRun_of_exited]
            · rw [Bool.not_eq_true] at hp
              have hstep : workerStep pick true w =
                  { w with chan := { w.chan with buffered := rest },
                           exported := w.exported ++ processBatch b } := by
                unfold workerStep
                simp [hex, Chan.recvReady, hb, hp, Chan.recvBatch]
              rw [workerRun, hstep]
              apply ih
              · simpa using hopen
              · simp only [hb, List.length_cons] at hlen
                simpa using Nat.lt_of_succ_lt_succ hlen

/-- State of a KafkaSink (kafka_sink.go, struct KafkaSink): the four metric
channels with their worker goroutines, the stop channel (a broadcast-on-close
signal, so only its closed flag matters), and the producer. -/
structure KafkaSinkState where
  offsetWorker : SinkWorker
  groupWorker : SinkWorker
  topicRateWorker : SinkWorker
  groupRateWorker : SinkWorker
  stopClosed : Bool
  producerClosed : Bool
deriving DecidableEq, Repr

/-- Observable steps of KafkaSink.Close, in the order they happen
(kafka_sink.go lines 66-78). -/
inductive CloseEvent
  | stopChannelClosed
  | workersJoined
  | offsetChannelClosed
  | groupChannelClosed
  | topicRateChannelClosed
  | groupRateChannelClosed
  | producerClosed
deriving DecidableEq, Repr

/-- Result of a call to KafkaSink.Close: it returned, it is still blocked in
wg.Wait because some worker never exited, or it panicked. -/
inductive CloseResult
  | returned (s : KafkaSinkState) (events : List CloseEvent)
  | blockedInWait (events : List CloseEvent)
  | panicked (p : GoPanic) (events : List CloseEvent)
deriving DecidableEq, Repr

/-- Event trace of a successful KafkaSink.Close in source order: close the
stop channel, wait for the workers, close offsetChan, groupChan,
topicRateChan, groupRateChan, close the producer. -/
def closeSuccessTrace : List CloseEvent :=
  [.stopChannelClosed, .workersJoined, .offsetChannelClosed, .groupChannelClosed,
   .topicRateChannelClosed, .groupRateChannelClosed, .producerClosed]

/-- Model of KafkaSink.Close (kafka_sink.go lines 66-78): close(stopCh) —
which panics if the stop channel is already closed — then wg.Wait for the
four workers (the schedule lists are the select choices each worker makes
between the stop-close and its exit), then close the four metric channels
in source order, then close the producer. -/
def KafkaSink.Close (s : KafkaSinkState) (so sg str sgr : List Bool) :
    CloseResult :=
  if s.stopClosed then .panicked .closeOfClosedChannel []
  else
    let wo := workerRun so true s.offsetWorker
    let wg := workerRun sg true s.groupWorker
    let wtr := workerRun str true s.topicRateWorker
    let wgr := workerRun sgr true s.groupRateWorker
    if wo.exited && wg.exited && wtr.exited && wgr.exited then
      match Chan.closeCh wo.chan with
      | .error p => .panicked p [.stopChannelClosed, .workersJoined]
      | .ok co =>
        match Chan.closeCh wg.chan with
        | .error p =>
            .panicked p [.stopChannelClosed, .workersJoined, .offsetChannelClosed]
        | .ok cg =>
          match Chan.closeCh wtr.chan with
          | .error p =>
              .panicked p [.stopChannelClosed, .workersJoined,
                           .offsetChannelClosed, .groupChannelClosed]
          | .ok ctr =>
            match Chan.closeCh wgr.chan with
            | .error p =>
                .panicked p [.stopChannelClosed, .workersJoined,
                             .offsetChannelClosed, .groupChannelClosed,
                             .topicRateChannelClosed]
            | .ok cgr =>
                .returned
                  { offsetWorker := { wo with chan := co },
                    groupWorker := { wg with chan := cg },
                    topicRateWorker := { wtr with chan := ctr },
                    groupRateWorker := { wgr with chan := cgr },
                    stopClosed := true,
                    producerClosed := true }
                  closeSuccessTrace
    else .blockedInWait [.stopChannelClosed]

/-- Mark a worker final: its goroutine has been joined and its channel closed. -/
def closeWorker (w : SinkWorker) : SinkWorker :=
  { w with chan := { w.chan with closed := true } }

/-- The sink state a successful Close produces, given the workers' schedules. -/
def closedFrom (s : KafkaSinkState) (so sg str sgr : List Bool) :
    KafkaSinkState :=
  { offsetWorker := closeWorker (workerRun so true s.offsetWorker),
    groupWorker := closeWorker (workerRun sg true s.groupWorker),
    topicRateWorker := closeWorker (workerRun str true s.topicRateWorker),
    groupRateWorker := closeWorker (workerRun sgr true s.groupRateWorker),
    stopClosed := true,
    producerClosed := true }

/-- A sink state as NewKafkaSink hands it out: stop channel open, producer
open, all four workers running with open channels. -/
def KafkaSinkState.fresh (s : KafkaSinkState) : Prop :=
  s.stopClosed = false ∧ s.producerClosed = false
  ∧ s.offsetWorker.exited = false ∧ s.offsetWorker.chan.closed = false
  ∧ s.groupWorker.exited = false ∧ s.groupWorker.chan.closed = false
  ∧ s.topicRateWorker.exited = false ∧ s.topicRateWorker.chan.closed = false
  ∧ s.groupRateWorker.exited = false ∧ s.groupRateWorker.chan.closed = false

/-- Close on a fresh sink returns (for every adversarial choice of select
schedules, as long as each worker gets at least one more step than it has
buffered batches) and performs exactly the source-order event sequence. -/
theorem close_fresh_returns (s : KafkaSinkState) (so sg str sgr : List Bool)
    (hs : s.fresh)
    (h1 : s.offsetWorker.chan.buffered.length < so.length)
    (h2 : s.groupWorker.chan.buffered.length < sg.length)
    (h3 : s.topicRateWorker.chan.buffered.length < str.length)
    (h4 : s.groupRateWorker.chan.buffered.length < sgr.length) :
    KafkaSink.Close s so sg str sgr =
      .returned (closedFrom s so sg str sgr) closeSuccessTrace := by
  obtain ⟨hstop, hprod, ho, hoc, hg, hgc, htr, htrc, hgr, hgrc⟩ := hs
  have eo := workerRun_exits so s.offsetWorker hoc h1
  have eg := workerRun_exits sg s.groupWorker hgc h2
  have etr := workerRun_exits str s.topicRateWorker htrc h3
  have egr := workerRun_exits sgr s.groupRateWorker hgrc h4
  have co : Chan.closeCh (workerRun so true s.offsetWorker).chan =
      .ok { (workerRun so true s.offsetWorker).chan with closed := true } := by
    simp [Chan.closeCh, workerRun_closed, hoc]
  have cg : Chan.closeCh (workerRun sg true s.groupWorker).chan =
      .ok { (workerRun sg true s.groupWorker).chan with closed := true } := by
    simp [Chan.closeCh, workerRun_closed, hgc]
  have ctr : Chan.closeCh (workerRun str true s.topicRateWorker).chan =
      .ok { (workerRun str true s.topicRateWorker).chan with closed := true } := by
    simp [Chan.closeCh, workerRun_closed, htrc]
  have cgr : Chan.closeCh (workerRun sgr true s.groupRateWorker).chan =
      .ok { (workerRun sgr true s.groupRateWorker).chan with closed := true } := by
    simp [Chan.closeCh, workerRun_closed, hgrc]
  simp [KafkaSink.Close, hstop, eo, eg, etr, egr, co, cg, ctr, cgr,
        closedFrom, closeWorker]

/-- Any returned Close left the stop channel closed: the success branch of
KafkaSink.Close always builds its final state with stopClosed set. -/
theorem close_returned_stopClosed (s s2 : KafkaSinkState)
    (so sg str sgr : List Bool) (ev : List CloseEvent)
    (h : KafkaSink.Close s so sg str sgr = .returned s2 ev) :
    s2.stopClosed = true := by
  unfold KafkaSink.Close at h
  dsimp only at h
  split at h
  · exact absurd h (by simp)
  · split at h
    · split at h
      · exact absurd h (by simp)
      · split at h
        · exact absurd h (by simp)
        · split at h
          · exact absurd h (by simp)
          · split at h
            · exact absurd h (by simp)
            · rw [CloseResult.returned.injEq] at h
              rw [← h.1]
    · exact absurd h (by simp)

/-- The sink state NewKafkaSink builds (kafka_sink.go lines 213-229): four
metric channels of capacity 1024, an open stop channel, and — because run()
is called before NewKafkaSink returns — four live workers that have
exported nothing yet. -/
def initialSinkState : KafkaSinkState :=
  { offsetWorker := ⟨Chan.make (List MetricRecord) 1024, false, []⟩,
    groupWorker := ⟨Chan.make (List MetricRecord) 1024, false, []⟩,
    topicRateWorker := ⟨Chan.make (List MetricRecord) 1024, false, []⟩,
    groupRateWorker := ⟨Chan.make (List MetricRecord) 1024, false, []⟩,
    stopClosed := false,
    producerClosed := false }

/-- Model of NewKafkaSink (kafka_sink.go lines 194-231): TLS configuration
and producer construction can each fail, in that order, and their error is
returned unchanged; otherwise the channels are made, run() starts the four
workers, and the sink is returned. -/
def NewKafkaSink (tlsErr producerErr : Option String) :
    Except String KafkaSinkState :=
  match tlsErr with
  | some e => .error e
  | none =>
    match producerErr with
    | some e => .error e
    | none => .ok initialSinkState

/-- Model of KafkaSink.Wait (kafka_sink.go lines 81-83): the body of the
source function is empty, so the call returns immediately whatever the state
of the workers; some () is an immediate return, a wait that blocks would be
none. -/
def KafkaSink.Wait (_s : KafkaSinkState) : Option Unit :=
  some ()

/-- Modelled from the spec: the metrics package holding the sink registry
(metrics.RegisterSink / metrics.New) is not among the provided source files.
Per the spec the registry maps a sink name to its constructor result;
lookup-by-name that finds nothing fails with an unknown sink error, and a
constructor failure propagates unchanged. -/
def metricsNew (registry : List (String × Except String KafkaSinkState))
    (name : String) : Except String KafkaSinkState :=
  match registry.lookup name with
  | some res => res
  | none => .error ("unknown sink " ++ name)

/-- Modelled from the spec: the consumer-group offset metric built by the
Collection Engine (pkg metrics, not among the provided source files).  Per
the spec, lag = logEndOffset - committedOffset clamped to be nonnegative. -/
structure ConsumerGroupOffsetMetric where
  group : String
  topic : String
  partitionIdx : Nat
  committedOffset : Int
  logEndOffset : Int
  lag : Int
deriving DecidableEq, Repr

/-- Modelled from the spec: build one consumer-group offset sample; a
transient negative lag (committed offset ahead of log end) is reported as 0,
never negative. -/
def mkConsumerGroupOffsetMetric (g t : String) (p : Nat)
    (committed logEnd : Int) : ConsumerGroupOffsetMetric :=
  { group := g, topic := t, partitionIdx := p,
    committedOffset := committed, logEndOffset := logEnd,
    lag := max (logEnd - committed) 0 }

/-- Observable steps of a run of main (kafka-offset.go lines 36-71), the
sink-internal steps included. -/
inductive MainEvent
  | errorLogged (msg : String)
  | sinkConstructed
  | engineConstructed
  | samplingLoopStarted
  | stopChannelClosed
  | engineStopped
  | engineClosed
  | sinkStopClosed
  | sinkWorkersJoined
  | sinkOffsetChannelClosed
  | sinkGroupChannelClosed
  | sinkTopicRateChannelClosed
  | sinkGroupRateChannelClosed
  | sinkProducerClosed
deriving DecidableEq, Repr

/-- Rename a sink Close event into the orchestrator event vocabulary. -/
def closeEventToMain : CloseEvent → MainEvent
  | .stopChannelClosed => .sinkStopClosed
  | .workersJoined => .sinkWorkersJoined
  | .offsetChannelClosed => .sinkOffsetChannelClosed
  | .groupChannelClosed => .sinkGroupChannelClosed
  | .topicRateChannelClosed => .sinkTopicRateChannelClosed
  | .groupRateChannelClosed => .sinkGroupRateChannelClosed
  | .producerClosed => .sinkProducerClosed

/-- Result of a run of the process: it exited with a status code, it is
stuck (a goroutine it waits for never finishes), or it crashed on a panic. -/
inductive MainResult
  | exited (code : Nat) (events : List MainEvent) (finalSink : Option KafkaSinkState)
  | stuck (events : List MainEvent)
  | crashed (p : GoPanic) (events : List MainEvent)
deriving DecidableEq, Repr

/-- Events of a main result. -/
def MainResult.eventsOf : MainResult → List MainEvent
  | .exited _ ev _ => ev
  | .stuck ev => ev
  | .crashed _ ev => ev

/-- Whether the process terminated with a non-zero exit status. -/
def MainResult.exitedWithNonzeroCode : MainResult → Bool
  | .exited code _ _ => code != 0
  | _ => false

/-- Model of main (kafka-offset.go lines 36-71).  sinkRes is the result of
metrics.New, engineErr of metrics.NewKafkaSource; the four schedule lists
drive the sink workers during sink.Close.  A Go main that returns normally
terminates the process with exit status 0; logrus.Error only logs.  The
collection engine itself is modelled from the spec (its package is not among
the provided sources): once the signal handler closes the stop channel the
engine finishes its tick and stops, s.Wait returns, and the deferred s.Close
releases the engine client; then the deferred sink.Close runs. -/
def mainRun (sinkRes : Except String KafkaSinkState) (engineErr : Option String)
    (so sg str sgr : List Bool) : MainResult :=
  match sinkRes with
  | .error e => .exited 0 [.errorLogged e] none
  | .ok sink =>
    match engineErr with
    | some e =>
        match KafkaSink.Close sink so sg str sgr with
        | .returned s2 ev =>
            .exited 0 ([.sinkConstructed, .errorLogged e]
              ++ ev.map closeEventToMain) (some s2)
        | .blockedInWait ev =>
            .stuck ([.sinkConstructed, .errorLogged e] ++ ev.map closeEventToMain)
        | .panicked p ev =>
            .crashed p ([.sinkConstructed, .errorLogged e]
              ++ ev.map closeEventToMain)
    | none =>
        match KafkaSink.Close sink so sg str sgr with
        | .returned s2 ev =>
            .exited 0 ([.sinkConstructed, .engineConstructed,
              .samplingLoopStarted, .stopChannelClosed, .engineStopped,
              .engineClosed] ++ ev.map closeEventToMain) (some s2)
        | .blockedInWait ev =>
            .stuck ([.sinkConstructed, .engineConstructed, .samplingLoopStarted,
              .stopChannelClosed, .engineStopped, .engineClosed]
              ++ ev.map closeEventToMain)
        | .panicked p ev =>
            .crashed p ([.sinkConstructed, .engineConstructed,
              .samplingLoopStarted, .stopChannelClosed, .engineStopped,
              .engineClosed] ++ ev.map closeEventToMain)

/-- Full event trace of a signal-driven shutdown of main with a kafka sink,
in the order the model produces it. -/
def mainShutdownTrace : List MainEvent :=
  [.sinkConstructed, .engineConstructed, .samplingLoopStarted,
   .stopChannelClosed, .engineStopped, .engineClosed, .sinkStopClosed,
   .sinkWorkersJoined, .sinkOffsetChannelClosed, .sinkGroupChannelClosed,
   .sinkTopicRateChannelClosed, .sinkGroupRateChannelClosed,
   .sinkProducerClosed]

/-- A batch of one healthy record, buffered but not yet consumed. -/
def bufferedBatch : List MetricRecord :=
  [{ marshalOk := true, publishOk := true }]

/-- A group worker with one batch buffered in its channel, as left by an
engine send that no worker iteration has consumed yet. -/
def c1Worker : SinkWorker :=
  { chan := { buffered := [bufferedBatch], capacity := 1024, closed := false },
    exited := false,
    exported := [] }

/-- C1: with the stop channel closed and one batch still buffered, the worker
select loop of kafka_sink.go run may pick the ready stop case and return at
once: the worker exits having exported nothing while the batch is still
buffered, so a buffered record is silently lost on the happy-path stop
sequence — the code does not drain the channel before exiting. -/
theorem C1_worker_exits_without_draining :
    (workerRun [true] true c1Worker).exited = true
    ∧ (workerRun [true] true c1Worker).exported = []
    ∧ (workerRun [true] true c1Worker).chan.buffered = [bufferedBatch] := by
  decide

/-- C2: KafkaSink.Wait has an empty body in the source, so it returns
immediately even on a sink whose four workers are all still running — it
does not block until the workers have exited, against both the spec and the
source comment Wait sync.Waitgroup until close. -/
theorem C2_wait_returns_while_workers_running :
    KafkaSink.Wait initialSinkState = some ()
    ∧ initialSinkState.offsetWorker.exited = false
    ∧ initialSinkState.groupWorker.exited = false
    ∧ initialSinkState.topicRateWorker.exited = false
    ∧ initialSinkState.groupRateWorker.exited = false := by
  decide

/-- C3: on a fresh sink, Close first closes the stop channel, then joins the
four workers, then closes the four metric channels exactly once each in
source order, then closes the producer, and it returns — no deadlock — for
every select schedule giving each worker one more step than its buffered
batch count, in particular when the stop signal fires before any worker has
consumed a record. -/
theorem C3_close_signals_waits_closes_in_order (s : KafkaSinkState)
    (so sg str sgr : List Bool) (hs : s.fresh)
    (h1 : s.offsetWorker.chan.buffered.length < so.length)
    (h2 : s.groupWorker.chan.buffered.length < sg.length)
    (h3 : s.topicRateWorker.chan.buffered.length < str.length)
    (h4 : s.groupRateWorker.chan.buffered.length < sgr.length) :
    KafkaSink.Close s so sg str sgr =
      .returned (closedFrom s so sg str sgr) closeSuccessTrace
    ∧ (closedFrom s so sg str sgr).stopClosed = true
    ∧ (closedFrom s so sg str sgr).offsetWorker.chan.closed = true
    ∧ (closedFrom s so sg str sgr).groupWorker.chan.closed = true
    ∧ (closedFrom s so sg str sgr).topicRateWorker.chan.closed = true
    ∧ (closedFrom s so sg str sgr).groupRateWorker.chan.closed = true
    ∧ (closedFrom s so sg str sgr).producerClosed = true
    ∧ closeSuccessTrace.count CloseEvent.stopChannelClosed = 1
    ∧ closeSuccessTrace.count CloseEvent.offsetChannelClosed = 1
    ∧ closeSuccessTrace.count CloseEvent.groupChannelClosed = 1
    ∧ closeSuccessTrace.count CloseEvent.topicRateChannelClosed = 1
    ∧ closeSuccessTrace.count CloseEvent.groupRateChannelClosed = 1
    ∧ closeSuccessTrace.count CloseEvent.producerClosed = 1 := by
  refine ⟨close_fresh_returns s so sg str sgr hs h1 h2 h3 h4, ?_, ?_, ?_, ?_, ?_, ?_,
          ?_, ?_, ?_, ?_, ?_, ?_⟩
  all_goals rfl

/-- Witness for C3 at a concrete fresh sink with empty buffers and one-step
schedules: the stop signal fires before any worker consumed a record. -/
theorem C3_close_signals_waits_closes_in_order_witness :
    KafkaSink.Close initialSinkState [true] [true] [true] [true] =
      .returned (closedFrom initialSinkState [true] [true] [true] [true])
        closeSuccessTrace
    ∧ (closedFrom initialSinkState [true] [true] [true] [true]).stopClosed = true
    ∧ (closedFrom initialSinkState [true] [true] [true] [true]).offsetWorker.chan.closed = true
    ∧ (closedFrom initialSinkState [true] [true] [true] [true]).groupWorker.chan.closed = true
    ∧ (closedFrom initialSinkState [true] [true] [true] [true]).topicRateWorker.chan.closed = true
    ∧ (closedFrom initialSinkState [true] [true] [true] [true]).groupRateWorker.chan.closed = true
    ∧ (closedFrom initialSinkState [true] [true] [true] [true]).producerClosed = true
    ∧ closeSuccessTrace.count CloseEvent.stopChannelClosed = 1
    ∧ closeSuccessTrace.count CloseEvent.offsetChannelClosed = 1
    ∧ closeSuccessTrace.count CloseEvent.groupChannelClosed = 1
    ∧ closeSuccessTrace.count CloseEvent.topicRateChannelClosed = 1
    ∧ closeSuccessTrace.count CloseEvent.groupRateChannelClosed = 1
    ∧ closeSuccessTrace.count CloseEvent.producerClosed = 1 :=
  C3_close_signals_waits_closes_in_order initialSinkState [true] [true] [true] [true]
    ⟨rfl, rfl, rfl, rfl, rfl, rfl, rfl, rfl, rfl, rfl⟩
    (by decide) (by decide) (by decide) (by decide)

/-- C4: inside a worker, records of a batch are handled one by one; a
marshal failure or a publish failure yields a logged-and-dropped outcome for
that record only, every other record of the batch (before or after it) gets
exactly the outcome it would get alone, every record of the batch is
handled, and handling a batch never makes the worker exit — failures cannot
crash it or stop subsequent records of the same or another kind. -/
theorem C4_record_failures_isolated (pre post : List MetricRecord)
    (r : MetricRecord) (b : List MetricRecord)
    (rest : List (List MetricRecord)) (cap : Nat)
    (outs : List RecordOutcome) :
    processBatch (pre ++ r :: post)
      = processBatch pre ++ processRecord r :: processBatch post
    ∧ processRecord { marshalOk := false, publishOk := r.publishOk }
        = .marshalErrorLogged
    ∧ processRecord { marshalOk := true, publishOk := false }
        = .publishErrorLogged
    ∧ (processBatch (pre ++ r :: post)).length = pre.length + post.length + 1
    ∧ (workerStep false true
        { chan := { buffered := b :: rest, capacity := cap, closed := false },
          exited := false, exported := outs }).exited = false := by
  refine ⟨by simp [processBatch], by simp [processRecord], rfl, ?_, ?_⟩
  · simp [processBatch]; omega
  · simp [workerStep, Chan.recvReady, Chan.recvBatch]

/-- C5: every consumer-group offset sample carries
lag = max (logEndOffset - committedOffset) 0: the lag is never negative, it
is 0 whenever the committed offset transiently exceeds the log end, and it
is the plain difference otherwise. -/
theorem C5_lag_clamped_nonnegative (g t : String) (p : Nat)
    (committed logEnd : Int) :
    0 ≤ (mkConsumerGroupOffsetMetric g t p committed logEnd).lag
    ∧ (mkConsumerGroupOffsetMetric g t p committed logEnd).lag
        = max (logEnd - committed) 0
    ∧ (logEnd < committed →
        (mkConsumerGroupOffsetMetric g t p committed logEnd).lag = 0)
    ∧ (committed ≤ logEnd →
        (mkConsumerGroupOffsetMetric g t p committed logEnd).lag
          = logEnd - committed) := by
  refine ⟨le_max_right _ _, rfl, ?_, ?_⟩
  · intro h
    simp only [mkConsumerGroupOffsetMetric]
    omega
  · intro h
    simp only [mkConsumerGroupOffsetMetric]
    omega

/-- Witness for C5 at the spec scenario of a stale read: committed offset
105 against log end 100 reports lag 0, never -5. -/
theorem C5_lag_clamped_nonnegative_witness :
    0 ≤ (mkConsumerGroupOffsetMetric "billing" "orders" 0 105 100).lag
    ∧ (mkConsumerGroupOffsetMetric "billing" "orders" 0 105 100).lag
        = max ((100 : Int) - 105) 0
    ∧ ((100 : Int) < 105 →
        (mkConsumerGroupOffsetMetric "billing" "orders" 0 105 100).lag = 0)
    ∧ ((105 : Int) ≤ 100 →
        (mkConsumerGroupOffsetMetric "billing" "orders" 0 105 100).lag
          = 100 - 105) :=
  C5_lag_clamped_nonnegative "billing" "orders" 0 105 100

/-- C6 counterexample: when the sink constructor fails, main logs the error
and returns — and a Go main that returns normally terminates the process
with exit status 0, the success status, so the claimed non-zero-equivalent
termination does not happen (logrus.Error logs without exiting). -/
theorem C6_counterexample_exit_status_zero :
    mainRun (.error "cannot construct sink") none [] [] [] []
      = .exited 0 [.errorLogged "cannot construct sink"] none
    ∧ (mainRun (.error "cannot construct sink") none
        [] [] [] []).exitedWithNonzeroCode = false :=
  ⟨rfl, rfl⟩

/-- C6 amended: on an unrecoverable startup error — sink construction or
engine construction failing — main logs the error and returns immediately
without the sampling loop ever starting, and the process terminates with
exit status 0, not a non-zero status. -/
theorem C6_startup_error_logs_and_exits_zero (e : String)
    (engineErr : Option String) (sink : KafkaSinkState)
    (so sg str sgr : List Bool) :
    mainRun (.error e) engineErr so sg str sgr
      = .exited 0 [.errorLogged e] none
    ∧ MainEvent.samplingLoopStarted
        ∉ (mainRun (.ok sink) (some e) so sg str sgr).eventsOf
    ∧ MainEvent.errorLogged e
        ∈ (mainRun (.ok sink) (some e) so sg str sgr).eventsOf
    ∧ (mainRun (.ok sink) (some e) so sg str sgr).exitedWithNonzeroCode = false
    ∧ (mainRun (.error e) engineErr so sg str sgr).exitedWithNonzeroCode
        = false := by
  have hmap : ∀ l : List CloseEvent,
      MainEvent.samplingLoopStarted ∉ l.map closeEventToMain := by
    intro l hmem
    rw [List.mem_map] at hmem
    obtain ⟨ce, _, hce⟩ := hmem
    cases ce <;> simp [closeEventToMain] at hce
  refine ⟨rfl, ?_, ?_, ?_, rfl⟩ <;>
    · simp only [mainRun]
      cases hC : KafkaSink.Close sink so sg str sgr <;>
        simp [MainResult.eventsOf, MainResult.exitedWithNonzeroCode, hmap]

/-- C7: looking up a sink name absent from the registry fails with an
unknown sink error, main logs it and returns at once, and the collection
engine is never constructed nor its sampling loop started. -/
theorem C7_unknown_sink_fails
    (registry : List (String × Except String KafkaSinkState)) (name : String)
    (engineErr : Option String) (so sg str sgr : List Bool)
    (h : registry.lookup name = none) :
    metricsNew registry name = .error ("unknown sink " ++ name)
    ∧ mainRun (metricsNew registry name) engineErr so sg str sgr
        = .exited 0 [.errorLogged ("unknown sink " ++ name)] none
    ∧ MainEvent.engineConstructed
        ∉ (mainRun (metricsNew registry name) engineErr so sg str sgr).eventsOf
    ∧ MainEvent.samplingLoopStarted
        ∉ (mainRun (metricsNew registry name) engineErr
            so sg str sgr).eventsOf := by
  have hm : metricsNew registry name = .error ("unknown sink " ++ name) := by
    simp [metricsNew, h]
  refine ⟨hm, ?_, ?_, ?_⟩ <;> simp [hm, mainRun, MainResult.eventsOf]

/-- Witness for C7: a registry holding only the log sink, asked for an
unregistered name. -/
theorem C7_unknown_sink_fails_witness :
    metricsNew [("log", .ok initialSinkState)] "elasticsearch"
      = .error ("unknown sink " ++ "elasticsearch")
    ∧ mainRun (metricsNew [("log", .ok initialSinkState)] "elasticsearch")
        none [] [] [] []
        = .exited 0 [.errorLogged ("unknown sink " ++ "elasticsearch")] none
    ∧ MainEvent.engineConstructed
        ∉ (mainRun (metricsNew [("log", .ok initialSinkState)] "elasticsearch")
            none [] [] [] []).eventsOf
    ∧ MainEvent.samplingLoopStarted
        ∉ (mainRun (metricsNew [("log", .ok initialSinkState)] "elasticsearch")
            none [] [] [] []).eventsOf :=
  C7_unknown_sink_fails [("log", .ok initialSinkState)] "elasticsearch"
    none [] [] [] [] rfl

/-- C8 amended: on the interrupt signal the model performs, in order: stop
channel closed, engine stops sampling, engine client released, sink stop
closed, sink workers exit — without a guarantee of draining batches still
buffered in their channels — then the four metric channels are closed, then
the producer is closed, for every fresh sink and every sufficiently long
select schedule. -/
theorem C8_shutdown_order (s : KafkaSinkState) (so sg str sgr : List Bool)
    (hs : s.fresh)
    (h1 : s.offsetWorker.chan.buffered.length < so.length)
    (h2 : s.groupWorker.chan.buffered.length < sg.length)
    (h3 : s.topicRateWorker.chan.buffered.length < str.length)
    (h4 : s.groupRateWorker.chan.buffered.length < sgr.length) :
    mainRun (.ok s) none so sg str sgr
      = .exited 0 mainShutdownTrace (some (closedFrom s so sg str sgr)) := by
  have hc := close_fresh_returns s so sg str sgr hs h1 h2 h3 h4
  simp [mainRun, hc, mainShutdownTrace, closeSuccessTrace, closeEventToMain]

/-- Witness for C8 amended at a concrete fresh sink. -/
theorem C8_shutdown_order_witness :
    mainRun (.ok initialSinkState) none [true] [true] [true] [true]
      = .exited 0 mainShutdownTrace
          (some (closedFrom initialSinkState [true] [true] [true] [true])) :=
  C8_shutdown_order initialSinkState [true] [true] [true] [true]
    ⟨rfl, rfl, rfl, rfl, rfl, rfl, rfl, rfl, rfl, rfl⟩
    (by decide) (by decide) (by decide) (by decide)

/-- A fresh sink whose group channel still holds one buffered batch when the
signal arrives. -/
def c8Sink : KafkaSinkState :=
  { initialSinkState with
      groupWorker :=
        { chan := { buffered := [bufferedBatch], capacity := 1024,
                    closed := false },
          exited := false, exported := [] } }

/-- C8 counterexample: a concrete shutdown in which the group worker picks
the stop select case, exits exporting nothing, and the channels are then
closed with the batch still buffered — the claimed drain step between the
engine stopping and the channels being closed does not happen. -/
theorem C8_counterexample_lost_batch :
    mainRun (.ok c8Sink) none [true] [true] [true] [true]
      = .exited 0 mainShutdownTrace
          (some (closedFrom c8Sink [true] [true] [true] [true]))
    ∧ (closedFrom c8Sink [true] [true] [true] [true]).groupWorker.exported = []
    ∧ (closedFrom c8Sink [true] [true] [true]
        [true]).groupWorker.chan.buffered = [bufferedBatch]
    ∧ (closedFrom c8Sink [true] [true] [true]
        [true]).groupWorker.chan.closed = true := by
  decide

/-- An open channel whose buffer is at capacity. -/
def fullChan : Chan (List MetricRecord) :=
  { buffered := [bufferedBatch, bufferedBatch], capacity := 2, closed := false }

/-- C9: NewKafkaSink creates the four metric channels with the finite bound
1024, and a send into any full open channel blocks the sender instead of
dropping the value. -/
theorem C9_channels_bounded_backpressure (s : KafkaSinkState)
    (c : Chan (List MetricRecord)) (x : List MetricRecord)
    (hnew : NewKafkaSink none none = .ok s)
    (hopen : c.closed = false)
    (hfull : c.buffered.length = c.capacity) :
    s.offsetWorker.chan.capacity = 1024
    ∧ s.groupWorker.chan.capacity = 1024
    ∧ s.topicRateWorker.chan.capacity = 1024
    ∧ s.groupRateWorker.chan.capacity = 1024
    ∧ Chan.send c x = .blockedFull := by
  simp only [NewKafkaSink] at hnew
  injection hnew with hs
  subst hs
  refine ⟨rfl, rfl, rfl, rfl, ?_⟩
  simp [Chan.send, hopen, hfull]

/-- Witness for C9: the sink NewKafkaSink returns and a channel filled to
its bound. -/
theorem C9_channels_bounded_backpressure_witness :
    initialSinkState.offsetWorker.chan.capacity = 1024
    ∧ initialSinkState.groupWorker.chan.capacity = 1024
    ∧ initialSinkState.topicRateWorker.chan.capacity = 1024
    ∧ initialSinkState.groupRateWorker.chan.capacity = 1024
    ∧ Chan.send fullChan [] = .blockedFull :=
  C9_channels_bounded_backpressure initialSinkState fullChan [] rfl rfl
    (by decide)

/-- C10: a second call to Close after a completed first call panics — the
first statement of Close closes the stop channel, which the first call
already closed — so Close is not idempotent. -/
theorem C10_second_close_panics (s s2 : KafkaSinkState)
    (so sg str sgr t1 t2 t3 t4 : List Bool) (ev : List CloseEvent)
    (h : KafkaSink.Close s so sg str sgr = .returned s2 ev) :
    KafkaSink.Close s2 t1 t2 t3 t4 = .panicked .closeOfClosedChannel [] := by
  have h2 := close_returned_stopClosed s s2 so sg str sgr ev h
  simp [KafkaSink.Close, h2]

/-- Witness for C10: the state a first Close on a fresh sink leaves behind
makes the second Close panic. -/
theorem C10_second_close_panics_witness :
    KafkaSink.Close (closedFrom initialSinkState [true] [true] [true] [true])
      [] [] [] [] = .panicked .closeOfClosedChannel [] :=
  C10_second_close_panics initialSinkState
    (closedFrom initialSinkState [true] [true] [true] [true])
    [true] [true] [true] [true] [] [] [] [] closeSuccessTrace (by decide)

end KafkaOffset
